import Mathlib

/-!
# Verification of the `mcp-world` job-server and sampling-handler examples

Shallow embedding of `03-job-server-project/server.py` (the `search_jobs` and
`save_job` tools) and `04-sampling/sampling_handler_example.py`
(`sampling_handler`), together with proofs about the specification's claims.

Modelling conventions:
* Python strings are Lean `String`s; slicing (`s[:n]`, `s[-n:]`) is defined on
  the underlying character list, matching Python's code-point semantics.
* A JSON job object is a record of exactly the fields the code reads via
  `dict.get`; an `Option` value `none` stands for "key absent or null".
  Numeric salary fields are modelled as `Int` (Python's `int(...)` conversion
  is the identity there).
* Python truthiness (`if not final_salary:`, `x or y`, `if params.systemPrompt:`)
  is modelled explicitly by `pyTruthy?` helpers.
* The filesystem state the two tools share — the temp cache file
  `jobs/temp/fetched_jobs_temp.json` and the per-job files under
  `jobs/saved_by_candidate/general/` — is a `ServerState` record threaded
  through the functions.  The HTTP layer is a parameter: `search_jobs` takes
  the `data` list of the API response, `sampling_handler` takes the completion
  call as a function.
-/

namespace McpWorld

/-- Python truthiness of an optional string: `None` and `""` are falsy. -/
def pyTruthyStr : Option String → Bool
  | none => false
  | some s => s != ""

/-- Python truthiness of an optional number: `None` and `0` are falsy. -/
def pyTruthyInt : Option Int → Bool
  | none => false
  | some n => n != 0

/-- Python `a or b` on optional numbers: `a` if truthy, else `b`. -/
def pyOrOpt (a b : Option Int) : Option Int :=
  if pyTruthyInt a then a else b

/-- Python `a or d` where `d` is a number: the value of `a` if truthy, else `d`.
Models `(min_add or 0)` in `save_job`. -/
def pyOrInt (a : Option Int) (d : Int) : Int :=
  if pyTruthyInt a then a.getD 0 else d

/-- Python list slice `l[:m]` for an `int` bound `m`: for non-negative `m`
take the first `m` elements, for negative `m` everything up to `len l + m`. -/
def pySliceTo (m : Int) (l : List α) : List α :=
  if m < 0 then l.take (l.length - (-m).toNat) else l.take m.toNat

/-- Python string slice `s[:n]` for `n ≥ 0`. -/
def strTake (n : Nat) (s : String) : String :=
  ⟨s.data.take n⟩

/-- Python string slice `s[-n:]` for `n ≥ 1`: the last `n` characters
(the whole string when it is shorter than `n`). -/
def strTakeLast (n : Nat) (s : String) : String :=
  ⟨s.data.drop (s.data.length - n)⟩

/-- A job object of the JSearch API response, restricted to the fields
`server.py` reads.  `none` = key absent or JSON `null`. -/
structure Job where
  job_id : Option String
  job_title : Option String
  employer_name : Option String
  job_city : Option String
  job_description : Option String
  job_apply_link : Option String
  job_employment_type : Option String
  job_posted_at_datetime_utc : Option String
  salary_currency : Option String
  min_base_salary : Option Int
  max_base_salary : Option Int
  job_min_salary : Option Int
  job_max_salary : Option Int
  min_additional_pay : Option Int
  max_additional_pay : Option Int
  job_salary_period : Option String
  deriving DecidableEq, Repr

/-- The summarized record `search_jobs` builds for one job. -/
structure JobSummary where
  job_id : Option String
  title : Option String
  company : Option String
  location : Option String
  description : String
  apply_link : String
  deriving DecidableEq, Repr

/-- One element of the list `search_jobs` returns: either the single
informational `{"message": ...}` record or a summarized job record. -/
inductive SearchOut where
  | message (text : String)
  | summary (s : JobSummary)
  deriving DecidableEq, Repr

/-- The record `save_job` writes to `<job_id>.json`. -/
structure SavedJob where
  title : String
  company : String
  location : String
  description : String
  employment_type : String
  posted_at : String
  apply_link : String
  salary : String
  deriving DecidableEq, Repr

/-- The filesystem state shared by the two tools: the temp cache file
(`none` = file absent) and the saved-job files keyed by job id. -/
structure ServerState where
  cache : Option (List Job)
  saved : List (String × SavedJob)
  deriving DecidableEq, Repr

/-- The state before any tool call: no cache file, no saved jobs. -/
def initState : ServerState := ⟨none, []⟩

/-- Writing file `<k>.json`: replaces the entry for `k` or appends it. -/
def upsert (l : List (String × SavedJob)) (k : String) (v : SavedJob) :
    List (String × SavedJob) :=
  match l with
  | [] => [(k, v)]
  | (k', v') :: t => if k' = k then (k, v) :: t else (k', v') :: upsert t k v

/-- The description bound of `search_jobs`: unchanged when at most 1000
characters, otherwise `desc[:1000] + ("\n...\n" if len(desc) > 2000 else "") +
desc[-1000:]`. -/
def summarizeDesc (desc : String) : String :=
  if desc.length ≤ 1000 then desc
  else strTake 1000 desc ++ (if 2000 < desc.length then "\n...\n" else "")
    ++ strTakeLast 1000 desc

/-- The summarized record for one job, as built in the loop of `search_jobs`.
`job.get("job_description", "")` yields `""` when the key is absent, and the
`isinstance` guard also yields `""` then. -/
def summarize (job : Job) : JobSummary :=
  { job_id := job.job_id
    title := job.job_title
    company := job.employer_name
    location := job.job_city
    description := summarizeDesc (job.job_description.getD "")
    apply_link := job.job_apply_link.getD "Not provided" }

/-- The tool `search_jobs` of `server.py`, with the `data` list of the decoded API
response as input: truncates to `max_results`, returns the informational
record when the truncation is empty, and otherwise writes the truncated
batch to the temp cache file and returns the summarized records. -/
def search_jobs (data : List Job) (max_results : Int) (st : ServerState) :
    List SearchOut × ServerState :=
  let job_list := pySliceTo max_results data
  if job_list.isEmpty then
    ([SearchOut.message "No jobs found."], st)
  else
    (job_list.map (fun j => SearchOut.summary (summarize j)),
      { st with cache := some job_list })

/-- Insert a `,` after every three characters of a reversed digit list;
the reversal of the result is Python's `{:,}` grouping of the digits. -/
def commaGroup : List Char → List Char
  | a :: b :: c :: d :: rest => a :: b :: c :: ',' :: commaGroup (d :: rest)
  | l => l

/-- Python `f"{n:,}"` for a natural number: decimal digits with a thousands
separator every three digits. -/
def fmtNatComma (n : Nat) : String :=
  ⟨(commaGroup (toString n).data.reverse).reverse⟩

/-- Python `f"{n:,}"` for an `int`: the sign, then the grouped magnitude. -/
def fmtComma (n : Int) : String :=
  if n < 0 then "-" ++ fmtNatComma n.natAbs else fmtNatComma n.natAbs

/-- The separator of the salary f-string in `server.py`, byte-exact: the file
holds a mis-encoded en dash — the three characters U+00E2, U+20AC, U+201C —
with a space on each side. -/
def brokenDashSep : String :=
  ⟨[' ', Char.ofNat 0xE2, Char.ofNat 0x20AC, Char.ofNat 0x201C, ' ']⟩

/-- Python `str.lower()`, restricted to the ASCII case mapping, applied per
character (the pay periods of the API are ASCII words such as `"YEAR"`). -/
def pyLower (s : String) : String :=
  ⟨s.data.map Char.toLower⟩

/-- The f-string of `save_job`,
`f"{currency} {total_min:,} â€“ {total_max:,}{per}"`, with currency, totals
and the `per` suffix as arguments. -/
def codeSalaryFormat (currency : String) (total_min total_max : Int) (per : String) :
    String :=
  currency ++ " " ++ fmtComma total_min ++ brokenDashSep ++ fmtComma total_max ++ per

/-- Step 2 of the salary resolution in `save_job`: the salary computed from
the structured fields, or `none` when `currency and min_base and max_base`
is falsy.  `min_base` is `selected.get("min_base_salary") or
selected.get("job_min_salary")`, and the totals add `(min_add or 0)` /
`(max_add or 0)` before `int(...)` (the identity on integers). -/
def structuredSalary (selected : Job) : Option String :=
  let currency := selected.salary_currency
  let min_base := pyOrOpt selected.min_base_salary selected.job_min_salary
  let max_base := pyOrOpt selected.max_base_salary selected.job_max_salary
  if pyTruthyStr currency && pyTruthyInt min_base && pyTruthyInt max_base then
    let total_min : Int := min_base.getD 0 + pyOrInt selected.min_additional_pay 0
    let total_max : Int := max_base.getD 0 + pyOrInt selected.max_additional_pay 0
    let per := if pyTruthyStr selected.job_salary_period then
        " per " ++ pyLower (selected.job_salary_period.getD "") else ""
    some (codeSalaryFormat (currency.getD "") total_min total_max per)
  else none

/-- Steps 1–3 of the salary resolution in `save_job`: prefer the caller's
`salary` when truthy, else the structured fields, else `"Not specified"`. -/
def resolveSalary (salary : Option String) (selected : Job) : String :=
  let final1 : Option String := salary
  let final2 : Option String :=
    if !pyTruthyStr final1 then
      match structuredSalary selected with
      | some s => some s
      | none => final1
    else final1
  if pyTruthyStr final2 then final2.getD "" else "Not specified"

/-- Return value of `save_job` when the temp cache file does not exist. -/
def noCacheMsg : String := "No fetched jobs available. Please run search_jobs first."

/-- Return value of `save_job` when no cached job has the given id. -/
def notFoundMsg (job_id : String) : String :=
  "Job ID " ++ job_id ++ " not found in fetched data."

/-- Return value of `save_job` on success. -/
def savedMsg (job_id salary : String) : String :=
  "Job " ++ job_id ++ " saved successfully with salary: " ++ salary

/-- The tool `save_job` of `server.py`: reads the temp cache, looks up the first job
whose `job_id` equals the argument, resolves the salary, writes the
normalized record to `general/<job_id>.json` and reports success; on a
missing cache file or an unknown id it only returns the error message. -/
def save_job (job_id : String) (salary : Option String) (st : ServerState) :
    String × ServerState :=
  match st.cache with
  | none => (noCacheMsg, st)
  | some jobs =>
    match jobs.find? (fun job => job.job_id == some job_id) with
    | none => (notFoundMsg job_id, st)
    | some selected =>
      let final_salary := resolveSalary salary selected
      let job_data : SavedJob :=
        { title := selected.job_title.getD "Not specified"
          company := selected.employer_name.getD "Not specified"
          location := selected.job_city.getD "Not specified"
          description := selected.job_description.getD "Not specified"
          employment_type := selected.job_employment_type.getD "Not specified"
          posted_at := selected.job_posted_at_datetime_utc.getD "Not specified"
          apply_link := selected.job_apply_link.getD "Not specified"
          salary := final_salary }
      (savedMsg job_id final_salary, { st with saved := upsert st.saved job_id job_data })

/-- One tool call, with the API response of a search as part of the call. -/
inductive Op where
  | search (data : List Job) (max_results : Int)
  | save (job_id : String) (salary : Option String)

/-- The state after one tool call. -/
def step (st : ServerState) : Op → ServerState
  | .search d m => (search_jobs d m st).2
  | .save i s => (save_job i s st).2

/-- The state after a sequence of tool calls, starting from `initState`. -/
def runOps (ops : List Op) : ServerState :=
  ops.foldl step initState

/-- The truncated batch of the latest `search` call of the trace (`none` when
the trace holds no search), continuing from `acc`. -/
def latestSearchBatchFrom (acc : Option (List Job)) (ops : List Op) :
    Option (List Job) :=
  ops.foldl (fun a op => match op with
    | .search d m => some (pySliceTo m d)
    | .save _ _ => a) acc

/-- The truncated batch of the latest `search` call of the trace. -/
def latestSearchBatch (ops : List Op) : Option (List Job) :=
  latestSearchBatchFrom none ops

/-- The latest nonempty truncated batch of the trace — the batch the latest
cache-file write put there — continuing from `acc`. -/
def lastWrittenBatchFrom (acc : Option (List Job)) (ops : List Op) :
    Option (List Job) :=
  ops.foldl (fun a op => match op with
    | .search d m => if (pySliceTo m d).isEmpty then a else some (pySliceTo m d)
    | .save _ _ => a) acc

/-- The latest nonempty truncated batch of the trace. -/
def lastWrittenBatch (ops : List Op) : Option (List Job) :=
  lastWrittenBatchFrom none ops

/-! ## The sampling handler (`04-sampling/sampling_handler_example.py`) -/

/-- The typed content of one sampling message: a `type` tag and the `text`
payload the handler reads when the tag is `"text"`. -/
structure SContent where
  type : String
  text : String
  deriving DecidableEq, Repr

/-- One conversation message given to the sampling handler. -/
structure SamplingMessage where
  role : String
  content : SContent
  deriving DecidableEq, Repr

/-- The request parameters; only `systemPrompt` is read by the handler. -/
structure SamplingParams where
  systemPrompt : Option String
  deriving DecidableEq, Repr

/-- One role/content pair of the flat chat-completion request. -/
structure ChatMessage where
  role : String
  content : String
  deriving DecidableEq, Repr

/-- The `chat_messages` list the handler builds: starts empty, appends the
system entry when `params.systemPrompt` is truthy, then appends one entry per
message whose content type is `"text"`, in order. -/
def buildChatMessages (messages : List SamplingMessage) (params : SamplingParams) :
    List ChatMessage :=
  let chat : List ChatMessage := []
  let chat := if pyTruthyStr params.systemPrompt then
      chat ++ [⟨"system", params.systemPrompt.getD ""⟩] else chat
  messages.foldl (fun acc m =>
    if m.content.type = "text" then acc ++ [⟨m.role, m.content.text⟩] else acc) chat

/-- Outcome of the awaited `acompletion` call together with the extraction
`response["choices"][0]["message"]["content"]`: either the generated text, or
the exception text `str(e)` that the `except` branch formats. -/
inductive CompletionOutcome where
  | success (text : String)
  | failure (err : String)

/-- The handler `sampling_handler`: builds the flat request, issues the completion call,
and returns the generated text, or the bracketed error string when the call
fails.  The `try/except Exception` makes the Python function total; the model
is total by construction. -/
def sampling_handler (messages : List SamplingMessage) (params : SamplingParams)
    (acompletion : List ChatMessage → CompletionOutcome) : String :=
  match acompletion (buildChatMessages messages params) with
  | .success t => t
  | .failure e => "[Error: LLM failed: " ++ e ++ "]"

/-! ## Concrete records used by counterexamples and witnesses -/


def jobA : Job :=
  { job_id := some "A", job_title := some "Engineer", employer_name := some "Acme",
    job_city := some "Austin", job_description := some "desc", job_apply_link := some "link",
    job_employment_type := none, job_posted_at_datetime_utc := none,
    salary_currency := some "USD", min_base_salary := none, max_base_salary := none,
    job_min_salary := some 60000, job_max_salary := some 80000,
    min_additional_pay := some 5000, max_additional_pay := none,
    job_salary_period := some "YEAR" }

/-- A job with every optional field absent except the id. -/
def jobB : Job :=
  { job_id := some "B", job_title := none, employer_name := none,
    job_city := none, job_description := none, job_apply_link := none,
    job_employment_type := none, job_posted_at_datetime_utc := none,
    salary_currency := none, min_base_salary := none, max_base_salary := none,
    job_min_salary := none, job_max_salary := none,
    min_additional_pay := none, max_additional_pay := none,
    job_salary_period := none }

/-- A job whose structured salary fields are all present, with an
already-lowercase pay period. -/
def jobDash : Job :=
  { jobB with
    job_id := some "D"
    salary_currency := some "USD"
    job_min_salary := some 60000
    job_max_salary := some 80000
    job_salary_period := some "year" }

/-- A server state whose cache already holds a batch. -/
def stPrior : ServerState := ⟨some [jobA], []⟩

/-- A 2001-character description, for exercising the ellipsis branch. -/
def dLong : String := ⟨List.replicate 2001 'a'⟩

/-- A job carrying the 2001-character description. -/
def jobLong : Job := { jobB with job_id := some "L", job_description := some dLong }

/-- The job id of one returned record (`none` for the informational one). -/
def outId : SearchOut → Option String
  | .message _ => none
  | .summary s => s.job_id

/-- The en dash U+2013, as it appears in the specification's salary pattern. -/
def enDash : String := ⟨[Char.ofNat 0x2013]⟩

/-- The salary string exactly as claim C1's pattern reads: the currency, a
space, the thousands-grouped total minimum, an en dash with no surrounding
spaces, the thousands-grouped total maximum, then " per " and the pay period.
Written from the claim's words, for comparison with the code's format. -/
def claimSalaryFormat (j : Job) : String :=
  j.salary_currency.getD "" ++ " "
    ++ fmtComma ((pyOrOpt j.min_base_salary j.job_min_salary).getD 0
        + pyOrInt j.min_additional_pay 0)
    ++ enDash
    ++ fmtComma ((pyOrOpt j.max_base_salary j.job_max_salary).getD 0
        + pyOrInt j.max_additional_pay 0)
    ++ " per " ++ j.job_salary_period.getD ""

/-- The trace on which the cache survives an empty search result. -/
def opsStale : List Op := [Op.search [jobA] 5, Op.search [] 5]

/-- Parameters without a system prompt. -/
def paramsNone : SamplingParams := ⟨none⟩

/-! ## Helper lemmas -/


theorem str_append_assoc (a b c : String) : a ++ b ++ c = a ++ (b ++ c) := by
  cases a; cases b; cases c
  show String.mk _ = String.mk _
  simp [List.append_assoc]

theorem save_job_cache_eq (id : String) (sal : Option String) (st : ServerState) :
    (save_job id sal st).2.cache = st.cache := by
  obtain ⟨c, s⟩ := st
  cases c with
  | none => rfl
  | some jobs =>
    cases h : jobs.find? (fun job => job.job_id == some id) <;> simp [save_job, h]

theorem str_append_eq_empty_iff (a b : String) : a ++ b = "" ↔ a = "" ∧ b = "" := by
  cases a with
  | mk la =>
    cases b with
    | mk lb =>
      constructor
      · intro h
        have h' : la ++ lb = [] := congrArg String.data h
        rcases List.append_eq_nil.mp h' with ⟨h1, h2⟩
        subst h1
        subst h2
        exact ⟨rfl, rfl⟩
      · rintro ⟨h1, h2⟩
        rw [h1, h2]
        rfl

theorem codeSalaryFormat_ne_empty (currency : String) (total_min total_max : Int)
    (per : String) : codeSalaryFormat currency total_min total_max per ≠ "" := by
  unfold codeSalaryFormat
  intro h
  rw [str_append_eq_empty_iff, str_append_eq_empty_iff, str_append_eq_empty_iff,
    str_append_eq_empty_iff, str_append_eq_empty_iff] at h
  exact absurd h.1.1.1.1.2 (by decide)

theorem save_job_writes_only_cached (id : String) (sal : Option String)
    (st : ServerState) :
    (save_job id sal st).2.saved ≠ st.saved →
      ∃ jobs, st.cache = some jobs ∧ ∃ j ∈ jobs, j.job_id = some id := by
  obtain ⟨c, s⟩ := st
  cases c with
  | none => intro h; exact absurd rfl h
  | some jobs =>
    cases hfind : jobs.find? (fun job => job.job_id == some id) with
    | none =>
      intro h
      exact absurd (by simp [save_job, hfind]) h
    | some selected =>
      intro _
      refine ⟨jobs, rfl, selected, List.mem_of_find?_eq_some hfind, ?_⟩
      have hp := List.find?_some hfind
      simpa using hp

theorem foldl_step_cache (ops : List Op) : ∀ st : ServerState,
    (ops.foldl step st).cache = lastWrittenBatchFrom st.cache ops := by
  induction ops with
  | nil => intro st; rfl
  | cons op t ih =>
    intro st
    rw [List.foldl_cons, ih]
    unfold lastWrittenBatchFrom
    rw [List.foldl_cons]
    congr 1
    cases op with
    | search d m =>
      show (search_jobs d m st).2.cache = _
      unfold search_jobs
      by_cases hjl : (pySliceTo m d).isEmpty
      · simp [hjl]
      · simp [hjl]
    | save i s2 => exact save_job_cache_eq i s2 st

theorem chat_foldl_eq (ms : List SamplingMessage) (acc : List ChatMessage) :
    ms.foldl (fun acc m => if m.content.type = "text"
        then acc ++ [⟨m.role, m.content.text⟩] else acc) acc
      = acc ++ ms.filterMap (fun m => if m.content.type = "text"
          then some ⟨m.role, m.content.text⟩ else none) := by
  induction ms generalizing acc with
  | nil => simp
  | cons m t ih =>
    by_cases h : m.content.type = "text"
    · simp [List.foldl_cons, List.filterMap_cons, h, ih]
    · simp [List.foldl_cons, List.filterMap_cons, h, ih]

/-! ## The claims -/


/-- C1 counterexample: `jobDash` has currency, minimum base and maximum base
all present (and an already-lowercase pay period, so lowercasing is moot),
the override is absent, yet the salary the code resolves is neither the
claim's formatted pattern — the file's f-string separates the totals with a
mis-encoded en dash surrounded by spaces, not with "–" — nor the fallback
"Not specified". -/
theorem C1_counterexample :
    jobDash.salary_currency.isSome = true ∧
    (pyOrOpt jobDash.min_base_salary jobDash.job_min_salary).isSome = true ∧
    (pyOrOpt jobDash.max_base_salary jobDash.job_max_salary).isSome = true ∧
    (save_job "D" none ⟨some [jobDash], []⟩).1
      = savedMsg "D" (resolveSalary none jobDash) ∧
    resolveSalary none jobDash ≠ claimSalaryFormat jobDash ∧
    resolveSalary none jobDash ≠ "Not specified" := by
  decide

/-- C1 amended: for a `save_job` call that finds its job in the cache, the
reported (and stored) salary follows the order: the override when truthy
(non-empty); otherwise, when currency and both bases are present and truthy,
the code's formatted string `codeSalaryFormat` — currency, space, the
thousands-grouped totals (base plus any additional pay) separated by
`brokenDashSep` (the file's mis-encoded en dash with a space on each side),
then " per " and the lowercased period when one is present; otherwise the
literal "Not specified". -/
theorem C1_save_job_salary_resolution (st : ServerState) (id : String)
    (sal : Option String) (jobs : List Job) (selected : Job)
    (hc : st.cache = some jobs)
    (hf : jobs.find? (fun job => job.job_id == some id) = some selected) :
    (save_job id sal st).1 = savedMsg id (resolveSalary sal selected) ∧
    (pyTruthyStr sal = true → resolveSalary sal selected = sal.getD "") ∧
    (pyTruthyStr sal = false →
      (pyTruthyStr selected.salary_currency
        && pyTruthyInt (pyOrOpt selected.min_base_salary selected.job_min_salary)
        && pyTruthyInt (pyOrOpt selected.max_base_salary selected.job_max_salary)) = true →
      resolveSalary sal selected =
        codeSalaryFormat (selected.salary_currency.getD "")
          ((pyOrOpt selected.min_base_salary selected.job_min_salary).getD 0
            + pyOrInt selected.min_additional_pay 0)
          ((pyOrOpt selected.max_base_salary selected.job_max_salary).getD 0
            + pyOrInt selected.max_additional_pay 0)
          (if pyTruthyStr selected.job_salary_period then
            " per " ++ pyLower (selected.job_salary_period.getD "") else "")) ∧
    (pyTruthyStr sal = false →
      (pyTruthyStr selected.salary_currency
        && pyTruthyInt (pyOrOpt selected.min_base_salary selected.job_min_salary)
        && pyTruthyInt (pyOrOpt selected.max_base_salary selected.job_max_salary)) = false →
      resolveSalary sal selected = "Not specified") := by
  refine ⟨?_, ?_, ?_, ?_⟩
  · simp [save_job, hc, hf]
  · intro h
    simp [resolveSalary, h]
  · intro h hcond
    have hsome : structuredSalary selected =
        some (codeSalaryFormat (selected.salary_currency.getD "")
          ((pyOrOpt selected.min_base_salary selected.job_min_salary).getD 0
            + pyOrInt selected.min_additional_pay 0)
          ((pyOrOpt selected.max_base_salary selected.job_max_salary).getD 0
            + pyOrInt selected.max_additional_pay 0)
          (if pyTruthyStr selected.job_salary_period then
            " per " ++ pyLower (selected.job_salary_period.getD "") else "")) := by
      simp [structuredSalary, hcond]
    have hne := codeSalaryFormat_ne_empty (selected.salary_currency.getD "")
      ((pyOrOpt selected.min_base_salary selected.job_min_salary).getD 0
        + pyOrInt selected.min_additional_pay 0)
      ((pyOrOpt selected.max_base_salary selected.job_max_salary).getD 0
        + pyOrInt selected.max_additional_pay 0)
      (if pyTruthyStr selected.job_salary_period then
        " per " ++ pyLower (selected.job_salary_period.getD "") else "")
    have hts : pyTruthyStr (some (codeSalaryFormat (selected.salary_currency.getD "")
        ((pyOrOpt selected.min_base_salary selected.job_min_salary).getD 0
          + pyOrInt selected.min_additional_pay 0)
        ((pyOrOpt selected.max_base_salary selected.job_max_salary).getD 0
          + pyOrInt selected.max_additional_pay 0)
        (if pyTruthyStr selected.job_salary_period then
          " per " ++ pyLower (selected.job_salary_period.getD "") else ""))) = true := by
      simpa [pyTruthyStr] using hne
    simp [resolveSalary, h, hsome, hts]
  · intro h hcond
    have hnone : structuredSalary selected = none := by
      simp [structuredSalary, hcond]
    simp [resolveSalary, h, hnone]

/-- C1 witness: the amended theorem at a cached job with currency `"USD"`,
base range 60000–80000, minimum additional pay 5000 and period `"YEAR"`, with
no override: the structured branch applies and evaluates to the code's
format. -/
theorem C1_witness :
    (save_job "A" none stPrior).1 = savedMsg "A" (resolveSalary none jobA) ∧
    resolveSalary none jobA = codeSalaryFormat "USD" 65000 80000 " per year" := by
  have h := C1_save_job_salary_resolution stPrior "A" none [jobA] jobA rfl (by decide)
  exact ⟨h.1, by simpa using h.2.2.1 (by decide) (by decide)⟩

/-- C2: when the API response holds at least one job and `max_results ≥ 1`,
the cache afterwards holds exactly the truncated batch — `min(N, max_results)`
raw jobs — and the returned list is the summarized batch: same length, same
job identifiers, same order. -/
theorem C2_search_jobs_cache_and_results (data : List Job) (m : Int) (st : ServerState)
    (hN : 1 ≤ data.length) (hm : 1 ≤ m) :
    (search_jobs data m st).2.cache = some (pySliceTo m data) ∧
    (pySliceTo m data).length = min data.length m.toNat ∧
    (search_jobs data m st).1 =
      (pySliceTo m data).map (fun j => SearchOut.summary (summarize j)) ∧
    (search_jobs data m st).1.map outId = (pySliceTo m data).map Job.job_id := by
  have hslice : pySliceTo m data = data.take m.toNat := by
    unfold pySliceTo
    rw [if_neg (by omega)]
  have hlen : (pySliceTo m data).length = min data.length m.toNat := by
    rw [hslice, List.length_take, Nat.min_comm]
  have hm' : 1 ≤ m.toNat := by omega
  have hne : pySliceTo m data ≠ [] := by
    intro h0
    rw [h0] at hlen
    simp at hlen
    omega
  refine ⟨?_, hlen, ?_, ?_⟩
  · simp [search_jobs, List.isEmpty_iff, hne]
  · simp [search_jobs, List.isEmpty_iff, hne]
  · simp [search_jobs, List.isEmpty_iff, hne, List.map_map, outId, summarize,
      Function.comp]

/-- C2 witness: the theorem at a two-job response with `max_results = 1`. -/
theorem C2_witness :
    (search_jobs [jobA, jobB] 1 initState).2.cache = some (pySliceTo 1 [jobA, jobB]) ∧
    (pySliceTo 1 [jobA, jobB]).length = min [jobA, jobB].length (1 : Int).toNat ∧
    (search_jobs [jobA, jobB] 1 initState).1 =
      (pySliceTo 1 [jobA, jobB]).map (fun j => SearchOut.summary (summarize j)) ∧
    (search_jobs [jobA, jobB] 1 initState).1.map outId
      = (pySliceTo 1 [jobA, jobB]).map Job.job_id :=
  C2_search_jobs_cache_and_results [jobA, jobB] 1 initState (by decide) (by decide)

/-- C3: for a job whose description is the string `d`, the summarized
description is `d` itself when `d` has at most 1000 characters; otherwise it
is the first 1000 characters, then the marker `"\n...\n"` exactly when `d`
has more than 2000 characters, then the last 1000 characters. -/
theorem C3_description_bound (job : Job) (d : String)
    (h : job.job_description = some d) :
    (d.length ≤ 1000 → (summarize job).description = d) ∧
    (1000 < d.length → (summarize job).description =
      (⟨d.data.take 1000⟩ : String)
        ++ (if 2000 < d.length then "\n...\n" else "")
        ++ ⟨d.data.drop (d.data.length - 1000)⟩) := by
  constructor
  · intro hle
    simp [summarize, h, summarizeDesc, hle]
  · intro hgt
    have hn : ¬ d.length ≤ 1000 := by omega
    simp [summarize, h, summarizeDesc, hn, strTake, strTakeLast]

/-- C3 witness: the theorem at the 2001-character description. -/
theorem C3_witness :
    1000 < dLong.length ∧ (summarize jobLong).description =
      (⟨dLong.data.take 1000⟩ : String)
        ++ (if 2000 < dLong.length then "\n...\n" else "")
        ++ ⟨dLong.data.drop (dLong.data.length - 1000)⟩ := by
  have hl : dLong.length = 2001 := by
    show (List.replicate 2001 'a').length = 2001
    rw [List.length_replicate]
  exact ⟨by omega, (C3_description_bound jobLong dLong rfl).2 (by omega)⟩

/-- C4 counterexample: a call whose API response holds no jobs does not
overwrite the cache with its (empty) truncated batch — the prior batch
survives, so the claim "after the call the cache file holds exactly the
(possibly empty) truncated batch of the most recent call, including when the
API yields no results" is false at this input. -/
theorem C4_counterexample :
    (search_jobs [] 5 stPrior).2.cache ≠ some (pySliceTo 5 ([] : List Job)) := by
  decide

/-- C4 amended: a `search_jobs` call overwrites the temp cache file with its
truncated batch exactly when that batch is nonempty; when the API yields no
results (or truncation empties the batch) the call leaves the state — in
particular any prior cache content — unchanged. -/
theorem C4_search_jobs_cache_overwrite (data : List Job) (m : Int) (st : ServerState) :
    (pySliceTo m data ≠ [] →
      (search_jobs data m st).2 = { st with cache := some (pySliceTo m data) }) ∧
    (pySliceTo m data = [] → (search_jobs data m st).2 = st) := by
  constructor
  · intro h
    simp [search_jobs, List.isEmpty_iff, h]
  · intro h
    simp [search_jobs, List.isEmpty_iff, h]

/-- C4 witness: the amended theorem at a nonempty batch over a prior cache,
and at an empty batch over the same prior cache. -/
theorem C4_witness :
    ((search_jobs [jobB] 5 stPrior).2 = { stPrior with cache := some (pySliceTo 5 [jobB]) }) ∧
    ((search_jobs [] 5 stPrior).2 = stPrior) :=
  ⟨(C4_search_jobs_cache_overwrite [jobB] 5 stPrior).1 (by decide),
   (C4_search_jobs_cache_overwrite [] 5 stPrior).2 (by decide)⟩

/-- C5 counterexample: after a search that found `jobA` and a second search
whose API response was empty, the latest `search_jobs` call's fetched batch is
empty — yet `save_job "A"` still writes a saved-job file (the saved list
changes, with the success message), persisting a job of the older batch. -/
theorem C5_counterexample :
    latestSearchBatch opsStale = some [] ∧
    (save_job "A" none (runOps opsStale)).2.saved ≠ (runOps opsStale).saved ∧
    (save_job "A" none (runOps opsStale)).1 = savedMsg "A" (resolveSalary none jobA) := by
  decide

/-- C5 amended: over every trace of tool calls, a `save_job` that changes the
saved-jobs folder finds its identifier in the currently cached batch, and the
cached batch is the latest *nonempty* truncated batch any search of the trace
fetched (searches whose truncated batch is empty do not replace it). -/
theorem C5_save_only_from_cached_batch (ops : List Op) (id : String)
    (sal : Option String) :
    ((save_job id sal (runOps ops)).2.saved ≠ (runOps ops).saved →
      ∃ jobs, (runOps ops).cache = some jobs ∧ ∃ j ∈ jobs, j.job_id = some id) ∧
    (runOps ops).cache = lastWrittenBatch ops :=
  ⟨save_job_writes_only_cached id sal (runOps ops), foldl_step_cache ops initState⟩

/-- C5 witness: the amended theorem on the one-search trace that cached
`jobA`, with the save of `"A"` changing the saved list. -/
theorem C5_witness :
    (∃ jobs, (runOps [Op.search [jobA] 5]).cache = some jobs ∧
      ∃ j ∈ jobs, j.job_id = some "A") ∧
    (runOps [Op.search [jobA] 5]).cache = lastWrittenBatch [Op.search [jobA] 5] :=
  ⟨(C5_save_only_from_cached_batch [Op.search [jobA] 5] "A" none).1 (by decide),
   (C5_save_only_from_cached_batch [Op.search [jobA] 5] "A" none).2⟩

/-- C6: `save_job` fails with the "no cache" message when the temp cache file
is absent, and with the "not found" message when no cached job carries the
given id; in both cases it returns the unchanged state, so no file is
written. -/
theorem C6_save_job_failure_cases (id : String) (sal : Option String) (st : ServerState) :
    (st.cache = none →
      save_job id sal st = ("No fetched jobs available. Please run search_jobs first.", st)) ∧
    (∀ jobs, st.cache = some jobs →
      jobs.find? (fun job => job.job_id == some id) = none →
      save_job id sal st = ("Job ID " ++ id ++ " not found in fetched data.", st)) := by
  constructor
  · intro h
    simp [save_job, h, noCacheMsg]
  · intro jobs hc hf
    simp [save_job, hc, hf, notFoundMsg]

/-- C6 witness: the theorem at the initial state (no cache file) and at a
cached batch that does not contain the requested id. -/
theorem C6_witness :
    (save_job "A" none initState
      = ("No fetched jobs available. Please run search_jobs first.", initState)) ∧
    (save_job "Z" none stPrior
      = ("Job ID " ++ "Z" ++ " not found in fetched data.", stPrior)) :=
  ⟨(C6_save_job_failure_cases "A" none initState).1 rfl,
   (C6_save_job_failure_cases "Z" none stPrior).2 [jobA] rfl (by decide)⟩

/-- C7: the sampling handler is a total function into strings — the model
carries the completion call as an explicit outcome, and the `try/except`
means no outcome raises — returning the generated text on success and, on
any failure, a string that begins with `"[Error:"`. -/
theorem C7_sampling_handler_output (messages : List SamplingMessage)
    (params : SamplingParams) (acompletion : List ChatMessage → CompletionOutcome) :
    (∀ t, acompletion (buildChatMessages messages params) = CompletionOutcome.success t →
      sampling_handler messages params acompletion = t) ∧
    (∀ e, acompletion (buildChatMessages messages params) = CompletionOutcome.failure e →
      ∃ rest, sampling_handler messages params acompletion = "[Error:" ++ rest) := by
  constructor
  · intro t h
    simp [sampling_handler, h]
  · intro e h
    refine ⟨" LLM failed: " ++ (e ++ "]"), ?_⟩
    simp [sampling_handler, h]
    rw [← str_append_assoc, ← str_append_assoc]
    rfl

/-- C7 witness: the theorem at an empty conversation and a completion call
that fails with `"boom"`. -/
theorem C7_witness :
    ∃ rest, sampling_handler [] paramsNone
      (fun _ => CompletionOutcome.failure "boom") = "[Error:" ++ rest :=
  (C7_sampling_handler_output [] paramsNone
    (fun _ => CompletionOutcome.failure "boom")).2 "boom" rfl

/-- C8: the chat-completion request the handler builds is a flat role/content
list: the system entry first exactly when the parameters carry a truthy
system prompt, then one entry per text-typed message content, in the original
order; contents of any other type contribute no entry. -/
theorem C8_buildChatMessages_spec (messages : List SamplingMessage)
    (params : SamplingParams) :
    buildChatMessages messages params =
      (if pyTruthyStr params.systemPrompt
        then [⟨"system", params.systemPrompt.getD ""⟩] else ([] : List ChatMessage))
      ++ messages.filterMap (fun m => if m.content.type = "text"
          then some ⟨m.role, m.content.text⟩ else none) := by
  unfold buildChatMessages
  cases h : pyTruthyStr params.systemPrompt <;> simp [h, chat_foldl_eq]

/-- C9: an empty-string salary override is treated exactly as an absent one —
replacing `some ""` by `none` changes nothing about a `save_job` call, so the
salary comes from the structured fields or the `"Not specified"` fallback —
and the salary resolved under the empty-string override is never the empty
string. -/
theorem C9_empty_override_like_none :
    (∀ (id : String) (st : ServerState), save_job id (some "") st = save_job id none st) ∧
    (∀ j : Job, resolveSalary (some "") j ≠ "") := by
  have hres : ∀ j : Job, resolveSalary (some "") j = resolveSalary none j := by
    intro j
    unfold resolveSalary
    cases hs : structuredSalary j <;> simp [hs, pyTruthyStr]
  constructor
  · intro id st
    obtain ⟨c, s⟩ := st
    cases c with
    | none => rfl
    | some jobs =>
      cases hfind : jobs.find? (fun job => job.job_id == some id) with
      | none => simp [save_job, hfind]
      | some selected => simp [save_job, hfind, hres]
  · intro j
    rw [hres]
    unfold resolveSalary
    cases hs : structuredSalary j with
    | none => simp [pyTruthyStr]
    | some s =>
      by_cases he : s = ""
      · simp [hs, pyTruthyStr, he]
      · simp [hs, pyTruthyStr, he]

/-- C9 witness: the theorem at a cached batch and at the job with structured
salary fields. -/
theorem C9_witness :
    save_job "A" (some "") stPrior = save_job "A" none stPrior ∧
    resolveSalary (some "") jobA ≠ "" :=
  ⟨C9_empty_override_like_none.1 "A" stPrior, C9_empty_override_like_none.2 jobA⟩

/-- C10: `search_jobs` performs no validation of `max_results`: with
`max_results = 0` it returns normally (the model is a total function) with the
single record `{"message": "No jobs found."}`, for every API response — also
when the response contains jobs — and the server state, in particular the
temp cache file, is left unchanged. -/
theorem C10_search_jobs_zero_max_results (data : List Job) (st : ServerState) :
    search_jobs data 0 st = ([SearchOut.message "No jobs found."], st) := by
  simp [search_jobs, pySliceTo]

end McpWorld
